import Mathlib

/- Shallow embedding of the tutoring backend's answer evaluator, session
   state machine and progression engine, translated from
   api/services/orchestrator.py, api/services/llm.py,
   api/services/progression.py, api/services/repositories.py and
   api/routers/v1/session.py.  Python dicts with optional keys are
   modelled as structures of Option fields; the repositories' dicts are
   association lists kept in insertion order (Python dicts preserve
   insertion order); floating point literals 0.3/0.6/0.9/0.5 are exact
   decimals and are modelled in ℚ. -/

namespace Edil

/- Python `x or default` on an optional string: `None` and `""` are falsy. -/
def pyOr (x : Option String) (d : String) : String :=
  match x with
  | none => d
  | some s => if s = "" then d else s

/- Python `needle in hay` on strings (substring containment). -/
def strContainsAux (needle : List Char) : (hay : List Char) → Bool
  | [] => needle.isPrefixOf []
  | h :: t => needle.isPrefixOf (h :: t) || strContainsAux needle t

def strContains (hay needle : String) : Bool :=
  strContainsAux needle.toList hay.toList

def stripWs (l : List Char) : List Char :=
  ((l.dropWhile Char.isWhitespace).reverse.dropWhile Char.isWhitespace).reverse

/- Python str.upper / str.lower / str.strip / str.startswith / str.split,
   computed on the character list (the data is ASCII). -/
def strUpper (s : String) : String := String.mk (s.toList.map Char.toUpper)

def strLower (s : String) : String := String.mk (s.toList.map Char.toLower)

def strStartsWith (s pre : String) : Bool := pre.toList.isPrefixOf s.toList

def splitOnFuel (sep : List Char) : Nat → List Char → List (List Char)
  | _, [] => [[]]
  | 0, l => [l]
  | fuel + 1, c :: rest =>
      if sep.isPrefixOf (c :: rest) then
        [] :: splitOnFuel sep fuel ((c :: rest).drop sep.length)
      else
        match splitOnFuel sep fuel rest with
        | [] => [[c]]
        | p :: ps => (c :: p) :: ps

/- Python `s.split(sep)` for a nonempty separator. -/
def strSplitOn (s sep : String) : List String :=
  (splitOnFuel sep.toList (s.toList.length + 1) s.toList).map String.mk

def strTrim (s : String) : String := String.mk (stripWs s.toList)

/- First token of Python `s.split()` (split on runs of whitespace); `none`
   models the IndexError on `[0]` when the string is all whitespace. -/
def firstToken (s : String) : Option String :=
  let rest := s.toList.dropWhile Char.isWhitespace
  let tok := rest.takeWhile (fun c => !c.isWhitespace)
  if tok.isEmpty then none else some (String.mk tok)

def digitsToNat (l : List Char) : Nat :=
  l.foldl (fun acc c => acc * 10 + (c.toNat - 48)) 0

/- Python `int(s)`: optional surrounding whitespace, optional sign, digits. -/
def parseIntPy (s : String) : Option Int :=
  let core : List Char → Option Int := fun l =>
    if l ≠ [] ∧ l.all Char.isDigit then some (digitsToNat l) else none
  match stripWs s.toList with
  | '+' :: rest => core rest
  | '-' :: rest => (core rest).map (fun n => -n)
  | rest => core rest

/- Python `float(s)` restricted to plain decimal numerals
   (optional sign, `d+`, `d+.d*`, `.d+`); exponents/inf/nan do not occur
   in the data this code parses.  The value is exact, in ℚ. -/
def parseFloatPy (s : String) : Option ℚ :=
  let core : List Char → Option ℚ := fun l =>
    let ip := l.takeWhile (fun c => c ≠ '.')
    match l.drop ip.length with
    | [] => if ip ≠ [] ∧ ip.all Char.isDigit then some (mkRat (digitsToNat ip) 1) else none
    | '.' :: fp =>
        if ip ++ fp ≠ [] ∧ ip.all Char.isDigit ∧ fp.all Char.isDigit then
          some (mkRat (digitsToNat ip * 10 ^ fp.length + digitsToNat fp) (10 ^ fp.length))
        else none
    | _ => none
  match stripWs s.toList with
  | '+' :: rest => core rest
  | '-' :: rest => (core rest).map (fun q => -q)
  | rest => core rest

/- Python `int(q * 10)` on an exact rational: truncation toward zero of
   10·q, computed on the numerator/denominator. -/
def truncTimes10 (q : ℚ) : Int := Int.tdiv (q.num * 10) (q.den : Int)

/- Association-list model of a Python dict (insertion order preserved).
   `dictSet` overwrites in place or appends at the end, like `d[k] = v`. -/
def dictSet {β : Type} : List (String × β) → String → β → List (String × β)
  | [], k, v => [(k, v)]
  | (k', v') :: t, k, v =>
      if k' = k then (k, v) :: t else (k', v') :: dictSet t k v

/- Update the value at a key if present (used for `self.sessions[sid]`
   mutations, whose key is known to exist at every call site). -/
def dictModify {β : Type} : List (String × β) → String → (β → β) → List (String × β)
  | [], _, _ => []
  | (k', v') :: t, k, f =>
      if k' = k then (k, f v') :: t else (k', v') :: dictModify t k f

/- Data model.  An Item is the stored catalog dict; every key the code
   reads with `.get` is an Option field (absent key = `none`).  The code
   reads both a `sub_topic` key (progression.py) and a `subtopic` key
   (session.py line 300), which are distinct dict keys. -/

structure AnswerDetails where
  correct_answer : Option String := none
  alternative_answers : Option (List String) := none
  answer_format : Option String := none
  deriving DecidableEq, Repr

structure Item where
  id : Option String := none
  topic : Option String := none
  sub_topic : Option String := none
  subtopic : Option String := none
  complexity : Option String := none
  marks : Option Nat := none
  title : Option String := none
  problem_text : Option String := none
  answer_details : Option AnswerDetails := none
  telemetry_scoring_xp : Option Nat := none
  deriving DecidableEq, Repr

/- The empty dict `{}` that do_step substitutes for a missing item. -/
def emptyItem : Item := {}

structure ConvEntry where
  role : String
  message : String
  deriving DecidableEq, Repr

structure StepRec where
  step_id : String
  response : String
  correct : Option Bool
  deriving DecidableEq, Repr

structure MisconceptionData where
  count : Nat
  confidence_scores : List ℚ
  deriving DecidableEq, Repr

/- Session dict as created by InMemorySessionsRepo.create_session
   (repositories.py lines 22-37); timestamps are elided. -/
structure Session where
  id : String
  learner_id : String
  item_id : String
  steps : List StepRec := []
  conversation_history : List ConvEntry := []
  current_step_idx : Nat := 0
  attempts_current : Nat := 0
  hints_used : Nat := 0
  finished : Bool := false
  learning_insights : List String := []
  misconceptions : List (String × MisconceptionData) := []
  deriving DecidableEq, Repr

/- Learner profile dict (repositories.py lines 113-124). -/
structure Profile where
  learner_id : String
  xp : Nat := 0
  badges : List String := []
  completed_items : List String := []
  current_session_id : Option String := none
  name : String := "Your Learner"
  grade_level : String := "P6"
  subjects : List String := ["maths"]
  deriving DecidableEq, Repr

def defaultProfile (learner_id : String) : Profile := { learner_id := learner_id }

/- The three in-memory repositories that back the session router. -/
structure World where
  items : List (String × Item) := []
  sessions : List (String × Session) := []
  profiles : List (String × Profile) := []
  deriving DecidableEq, Repr

/- InMemorySessionsRepo methods used by do_step (repositories.py). -/

def add_to_conversation (w : World) (sid role message : String) : World :=
  { w with sessions := (dictModify w.sessions sid fun s => { s with conversation_history :=
                    s.conversation_history ++ [⟨role, message⟩] }) }

def append_step (w : World) (sid : String) (step : StepRec) : World :=
  { w with sessions := (dictModify w.sessions sid fun s => { s with steps := s.steps ++ [step] }) }

def inc_attempt (w : World) (sid : String) : World :=
  { w with sessions := (dictModify w.sessions sid fun s => { s with attempts_current := s.attempts_current + 1 }) }

def mark_finished (w : World) (sid : String) : World :=
  { w with sessions := (dictModify w.sessions sid fun s => { s with finished := true }) }

def add_learning_insight (w : World) (sid insight : String) : World :=
  { w with sessions := (dictModify w.sessions sid fun s => { s with learning_insights := s.learning_insights ++ [insight] }) }

def recordMisconceptionTag (m : List (String × MisconceptionData))
    (tag : String) (confidence : ℚ) : List (String × MisconceptionData) :=
  let m' := if (List.lookup tag m).isSome then m
            else m ++ [(tag, ⟨0, []⟩)]
  dictModify m' tag (fun d =>
    { count := d.count + 1, confidence_scores := d.confidence_scores ++ [confidence] })

def record_misconceptions (w : World) (sid : String)
    (tags : List String) (confidence : ℚ) : World :=
  { w with sessions := (dictModify w.sessions sid fun s =>
      let m := tags.foldl (fun m tag => recordMisconceptionTag m tag confidence) s.misconceptions
      { s with misconceptions := m }) }

/- InMemoryProfilesRepo methods (repositories.py lines 113-144).
   get_profile is `dict.setdefault`: it inserts a default profile when the
   learner is unknown and returns the stored profile. -/

def get_profile (w : World) (learner_id : String) : Profile × World :=
  match List.lookup learner_id w.profiles with
  | some p => (p, w)
  | none =>
      (defaultProfile learner_id,
       { w with profiles := w.profiles ++ [(learner_id, defaultProfile learner_id)] })

def add_xp (w : World) (learner_id : String) (amount : Nat) : World :=
  let (p, w') := get_profile w learner_id
  { w' with profiles := dictSet w'.profiles learner_id { p with xp := p.xp + amount } }

def mark_item_completed (w : World) (learner_id item_id : String) : World :=
  let (p, w') := get_profile w learner_id
  let c := if p.completed_items.contains item_id then p.completed_items
           else p.completed_items ++ [item_id]
  { w' with profiles := dictSet w'.profiles learner_id { p with completed_items := c } }

def set_current_session (w : World) (learner_id sid : String) : World :=
  let (p, w') := get_profile w learner_id
  { w' with profiles := dictSet w'.profiles learner_id { p with current_session_id := some sid } }

def clear_current_session (w : World) (learner_id : String) : World :=
  let (p, w') := get_profile w learner_id
  { w' with profiles := dictSet w'.profiles learner_id { p with current_session_id := none } }

/- Answer evaluator (api/services/orchestrator.py).

   SimpleOrchestrator.evaluate_simplified calls `self._llm.generate(...)`
   and `self._llm.parse_json_response(...)` inside a try/except.  Neither
   method is defined by any shipped LLMClient class (llm.py defines only
   `evaluate_and_respond` on LLMClient and GeminiLLM), so with every
   shipped non-None client the call raises AttributeError, which the
   except-clause catches.  The client's behaviour for one evaluation is
   therefore modelled as: it raises (the shipped behaviour, message =
   str(e)), or it returns a parsed dict (a hypothetical client that does
   implement both methods and completes normally). -/

structure ParsedJudge where
  is_correct : Option Bool := none
  feedback : Option String := none
  should_advance : Option Bool := none
  deriving DecidableEq, Repr

inductive LLMBehavior where
  | raises (msg : String)
  | returns (r : ParsedJudge)
  deriving DecidableEq, Repr

/- The evaluation_data dict returned by evaluate_simplified; every key is
   optional (the failure branch returns a dict with only "error", the
   no-LLM branch returns an empty dict). -/
structure EvalData where
  learning_insight : Option String := none
  misconception_tags : Option (List String) := none
  confidence_level : Option ℚ := none
  error : Option String := none
  deriving DecidableEq, Repr

/- SimpleOrchestrator.evaluate_simplified (orchestrator.py lines 21-114).
   Returns (correctness, next_prompt, hint, evaluation_data).  The prompt
   text built from the item only feeds the external model and does not
   influence the deterministic control flow, which never compares the
   response against correct_answer/alternative_answers. -/
def evaluate_simplified (llm : Option LLMBehavior) (user_response : String)
    (item : Item) (attempts_so_far : Nat) (session : Option Session) :
    Option Bool × Option String × Option String × EvalData :=
  match llm with
  | none => (none, none, some "I need to think about this. Let's try again.", {})
  | some (.raises msg) =>
      (none, none,
       some "Oops! I need a moment to think about your answer. Please try submitting it again!",
       { error := some ("AI_EVALUATION_FAILED: " ++ msg) })
  | some (.returns r) =>
      let correctness := r.is_correct.getD false
      let feedback := r.feedback.getD ""
      let next_prompt := if correctness then some feedback else none
      let hint := if correctness then none else some feedback
      (some correctness, next_prompt, hint,
       { learning_insight := some feedback, misconception_tags := some [],
         confidence_level := some (if correctness then mkRat 9 10 else mkRat 7 10) })

/- GeminiLLM.evaluate_and_respond (api/services/llm.py lines 60-209).
   The generate_content call and json.loads are external (Gemini API and
   the Python stdlib); their outcome for one call is an input of the
   model: the request raised, produced no text, produced text that is not
   JSON, or produced a parsed JSON object (a flat dict whose relevant
   keys are modelled as optional typed fields). -/

structure JudgeJson where
  is_correct : Option Bool := none
  response : Option String := none
  should_advance : Option Bool := none
  learning_insight : Option String := none
  misconception_tags : Option (List String) := none
  confidence_level : Option ℚ := none
  deriving DecidableEq, Repr

inductive GenOutcome where
  | raised (msg : String)
  | noText
  | badJson (text : String)
  | json (j : JudgeJson)
  deriving DecidableEq, Repr

/- The hard-coded fallback dict (llm.py lines 194-199): parsing failures
   and missing required fields produce is_correct=False. -/
def geminiFallback : JudgeJson :=
  { is_correct := some false,
    response := some "Let me help you think through this step by step. What operation do you think we need here?",
    should_advance := some false }

/- The fallback dict built in the except-clause (llm.py lines 200-209). -/
def geminiErrorFallback (msg : String) : JudgeJson :=
  { is_correct := some false,
    response := some ("I'm having trouble right now. Let me try to help: What operation do you think we need here? (Debug: "
                      ++ String.mk (msg.toList.take 100) ++ ")"),
    should_advance := some false }

def evaluate_and_respond (outcome : GenOutcome) : JudgeJson :=
  match outcome with
  | .raised msg => geminiErrorFallback msg
  | .noText => geminiFallback
  | .badJson _ => geminiFallback
  | .json j =>
      if j.is_correct.isSome ∧ j.response.isSome ∧ j.should_advance.isSome then
        { j with learning_insight := some (j.learning_insight.getD ""),
                 misconception_tags := some (j.misconception_tags.getD []),
                 confidence_level := some (j.confidence_level.getD 1) }
      else geminiFallback

/- The result dict of SimpleOrchestrator.evaluate (orchestrator.py lines
   164-184); it never contains an "error" key. -/
structure EvalResultDict where
  learning_insight : String
  misconception_tags : List String
  confidence_level : ℚ
  deriving DecidableEq, Repr

/- SimpleOrchestrator.evaluate (orchestrator.py lines 116-184).  The
   conversation/hints/expected-answer context extracted from item, step
   and session only feeds the external judge call, modelled by `llm`
   (None = no client configured).  Returns (correctness, next_prompt,
   hint, result); correctness is True only when is_correct and
   should_advance both hold, and None otherwise — never False. -/
def orchestrator_evaluate (llm : Option GenOutcome) (user_response : String) :
    Option Bool × Option String × Option String × Option EvalResultDict :=
  match llm with
  | none => (none, none, some "I need to think about this. Let's try again.", none)
  | some outcome =>
      let ai := evaluate_and_respond outcome
      let is_correct := ai.is_correct.getD false
      let response_text := ai.response.getD "Let's try again."
      let should_advance := ai.should_advance.getD false
      let result : EvalResultDict :=
        { learning_insight := ai.learning_insight.getD "",
          misconception_tags := ai.misconception_tags.getD [],
          confidence_level := ai.confidence_level.getD 1 }
      if is_correct && should_advance then
        (some true, some response_text, none, some result)
      else
        (none, none, some response_text, some result)

/- Symbolic equivalence (orchestrator.py lines 9-14).

   cas_equivalent wraps `bool(Eq(sympify(user), sympify(target)))` in
   try/except returning False on any exception.  sympy is the external
   symbolic-algebra collaborator.  Modelled from the spec: the
   collaborator parses each string into a symbolic expression (here: a
   sum of integer constants and variables, the fragment the accepted
   answers use) and tests mathematical equality (here: equality of the
   canonical linear normal form); any parse failure, and any pair whose
   truth sympy cannot decide, yields False rather than an exception. -/

inductive CasExpr where
  | num (n : Int)
  | var (name : String)
  | add (a b : CasExpr)
  deriving DecidableEq, Repr

/- Tokenize into numbers, identifiers and plus signs. -/
inductive CasTok where
  | num (n : Nat)
  | ident (s : String)
  | plus
  deriving DecidableEq, Repr

/- One-character-at-a-time lexer state: tokens emitted so far plus the
   digit or letter run currently being read. -/
inductive CasPending where
  | nothing
  | digits (n : Nat)
  | letters (cs : List Char)
  deriving DecidableEq, Repr

def casFlush (toks : List CasTok) (pend : CasPending) : List CasTok :=
  match pend with
  | .nothing => toks
  | .digits n => toks ++ [.num n]
  | .letters cs => toks ++ [.ident (String.mk cs.reverse)]

def casLexStep (st : Option (List CasTok × CasPending)) (c : Char) :
    Option (List CasTok × CasPending) :=
  match st with
  | none => none
  | some (toks, pend) =>
      if c.isDigit then
        match pend with
        | .digits n => some (toks, .digits (n * 10 + (c.toNat - 48)))
        | p => some (casFlush toks p, .digits (c.toNat - 48))
      else if c.isAlpha then
        match pend with
        | .letters cs => some (toks, .letters (c :: cs))
        | p => some (casFlush toks p, .letters [c])
      else if c.isWhitespace then some (casFlush toks pend, .nothing)
      else if c = '+' then some (casFlush toks pend ++ [.plus], .nothing)
      else none

def casLex (l : List Char) : Option (List CasTok) :=
  (l.foldl casLexStep (some ([], .nothing))).map (fun p => casFlush p.1 p.2)

/- Parse `atom (+ atom)*`. -/
def casParseTail : CasExpr → List CasTok → Option CasExpr
  | acc, [] => some acc
  | acc, CasTok.plus :: CasTok.num n :: rest => casParseTail (.add acc (.num n)) rest
  | acc, CasTok.plus :: CasTok.ident s :: rest => casParseTail (.add acc (.var s)) rest
  | _, _ => none

def casParse (s : String) : Option CasExpr :=
  match casLex s.toList with
  | some (CasTok.num n :: rest) => casParseTail (.num n) rest
  | some (CasTok.ident v :: rest) => casParseTail (.var v) rest
  | _ => none

/- Mathematical equality of two sums: same constant term and the same
   multiplicity for every variable. -/
def casConst : CasExpr → Int
  | .num n => n
  | .var _ => 0
  | .add a b => casConst a + casConst b

def casVars : CasExpr → List String
  | .num _ => []
  | .var v => [v]
  | .add a b => casVars a ++ casVars b

def casEqExpr (a b : CasExpr) : Bool :=
  casConst a = casConst b &&
  (casVars a ++ casVars b).all (fun v => (casVars a).count v = (casVars b).count v)

def cas_equivalent (user target : String) : Bool :=
  match casParse user, casParse target with
  | some a, some b => casEqExpr a b
  | _, _ => false

/- Progression engine (api/services/progression.py). -/

/- ProgressionService._extract_subtopic_order (lines 141-152):
   `int(float(sub_topic.split()[0]) * 10)` guarded by the label containing
   a dot; every ValueError/IndexError yields 0. -/
def extract_subtopic_order (sub_topic : String) : Int :=
  if sub_topic = "" then 0
  else if (strSplitOn sub_topic ".").length ≥ 2 then
    match firstToken sub_topic with
    | none => 0
    | some tok =>
        match parseFloatPy tok with
        | none => 0
        | some q => truncTimes10 q
  else 0

/- ProgressionService._extract_question_number (lines 154-161):
   `int(item_id.split("-Q")[-1])` when "-Q" occurs, else 0; ValueError
   yields 0. -/
def extract_question_number (item_id : String) : Int :=
  if strContains item_id "-Q" then
    match parseIntPy ((strSplitOn item_id "-Q").getLastD "") with
    | some n => n
    | none => 0
  else 0

/- difficulty_map with default 0.5 (lines 29-30). -/
def difficultyMap (complexity : String) : ℚ :=
  if complexity = "Easy" then mkRat 3 10
  else if complexity = "Medium" then mkRat 6 10
  else if complexity = "Hard" then mkRat 9 10
  else mkRat 1 2

/- ProgressionService._discover_topic_items (lines 64-92): keep ids that
   start (uppercased) with "TOPIC-", or whose item's topic field equals
   the topic name case-insensitively. -/
def discover_topic_items (catalog : List (String × Item)) (topic_name : String) :
    List String :=
  (catalog.filter (fun p =>
    (strStartsWith (strUpper p.1) (strUpper topic_name ++ "-")) ||
    (strLower (p.2.topic.getD "") == strLower topic_name))).map Prod.fst

/- ProgressionService._matches_subtopic (lines 94-112). -/
def matches_subtopic (item_id item_sub_topic subtopic_filter : String) : Bool :=
  (item_sub_topic ≠ "" && strLower item_sub_topic == strLower subtopic_filter) ||
  strContains (strUpper item_id) (strUpper subtopic_filter)

structure ProgEntry where
  id : String
  difficulty : ℚ
  complexity : String
  subtopic_order : Int
  question_num : Int
  sub_topic : String
  deriving DecidableEq, Repr

def progEntry (item_id : String) (item : Item) : ProgEntry :=
  let complexity := item.complexity.getD "Easy"
  { id := item_id, difficulty := difficultyMap complexity, complexity := complexity,
    subtopic_order := extract_subtopic_order (item.sub_topic.getD ""),
    question_num := extract_question_number item_id,
    sub_topic := item.sub_topic.getD "" }

/- Python truthiness of the optional subtopic_filter argument
   (`if subtopic_filter:`): None and "" are falsy. -/
def pyTruthyStr (o : Option String) : Bool := !(o.getD "" == "")

/- The unsorted entry list built by get_topic_progression (lines 24-55).
   The `if item:` guard re-reads each discovered id from the repository. -/
def prog_entries (catalog : List (String × Item)) (topic_name : String)
    (subtopic_filter : Option String) : List ProgEntry :=
  (discover_topic_items catalog topic_name).filterMap (fun item_id =>
    match List.lookup item_id catalog with
    | none => none
    | some item =>
        let e := progEntry item_id item
        if pyTruthyStr subtopic_filter then
          if matches_subtopic item_id e.sub_topic (subtopic_filter.getD "") then some e
          else none
        else some e)

/- The Python sort key tuple (subtopic_order, question_num, difficulty),
   compared lexicographically. -/
def progKey (e : ProgEntry) : ℤ ×ₗ ℤ ×ₗ ℚ :=
  toLex (e.subtopic_order, toLex (e.question_num, e.difficulty))

def progKeyLE (a b : ProgEntry) : Prop := progKey a ≤ progKey b

instance : DecidableRel progKeyLE :=
  fun a b => inferInstanceAs (Decidable (progKey a ≤ progKey b))

/- ProgressionService.get_topic_progression (lines 11-61).
   `list.sort(key=...)` is a stable ascending sort, modelled by insertion
   sort on the non-strict key order (stable-sort output is unique, so any
   stable implementation is extensionally the Python one). -/
def get_topic_progression (catalog : List (String × Item)) (topic_name : String)
    (subtopic_filter : Option String) : List String :=
  (List.insertionSort progKeyLE (prog_entries catalog topic_name subtopic_filter)).map
    ProgEntry.id

/- ProgressionService.get_next_item_id (lines 163-193): find the current
   item's first position (list.index); scan forward for the first item not
   completed; on ValueError (current not in progression) scan from the
   start. -/
def get_next_item_id (catalog : List (String × Item)) (current_item_id : String)
    (completed_items : List String) (topic_name : String)
    (subtopic_filter : Option String) : Option String :=
  let progression := get_topic_progression catalog topic_name subtopic_filter
  match progression.findIdx? (· == current_item_id) with
  | some current_index =>
      (progression.drop (current_index + 1)).find? (fun id => !(completed_items.contains id))
  | none => progression.find? (fun id => !(completed_items.contains id))

/- ProgressionService.recommend_next_session (lines 209-236). -/
def recommend_next_session (catalog : List (String × Item)) (learner_profile : Profile)
    (topic_name : String) (subtopic_filter : Option String) : Option String :=
  let completed_items := learner_profile.completed_items
  let progression := get_topic_progression catalog topic_name subtopic_filter
  if progression.isEmpty then none
  else
    let topic_completed := completed_items.filter (fun id => progression.contains id)
    match topic_completed.getLast? with
    | none => progression.head?
    | some last_completed_in_topic =>
        get_next_item_id catalog last_completed_in_topic completed_items topic_name
          subtopic_filter

/- Session router (api/routers/v1/session.py). -/

structure HTTPError where
  status : Nat
  detail : String
  deriving DecidableEq, Repr

structure StepRequest where
  session_id : String
  step_id : String
  user_response : String
  deriving DecidableEq, Repr

structure Updates where
  ai_error : Option String := none
  item_completed : Option Bool := none
  next_item_available : Option Bool := none
  next_item_id : Option String := none
  next_item_title : Option String := none
  progression_completed : Option Bool := none
  xp_earned : Option Nat := none
  deriving DecidableEq, Repr

structure SessionStepResponse where
  correctness : Option Bool := none
  next_prompt : Option String := none
  hint : Option String := none
  tutor_message : Option String := none
  updates : Updates := {}
  finished : Bool := false
  step_id : Option String := none
  deriving DecidableEq, Repr

/- _extract_topic_from_item_id (session.py lines 45-92): repository
   lookup first; then ordered keyword inference; then a direct topic-name
   match; otherwise HTTP 400. -/
def topic_patterns : List (String × List String) :=
  [("algebra", ["algebra", "algebraic", "equation", "expression"]),
   ("fractions", ["fraction", "mixed", "numerator", "denominator"]),
   ("percentage", ["percent", "%", "increase", "decrease"]),
   ("ratio", ["ratio", "proportion", "equivalent"]),
   ("speed", ["speed", "distance", "time", "velocity"]),
   ("geometry", ["area", "perimeter", "angle", "shape", "measurement"]),
   ("data-analysis", ["graph", "chart", "data", "bar", "pie", "line"])]

def findPatternTopic (item_id_lower : String) : Option String :=
  (topic_patterns.find? (fun p => p.2.any (fun kw => strContains item_id_lower kw))).map
    Prod.fst

def findDirectTopic (item_id_lower : String) : Option String :=
  (topic_patterns.map Prod.fst).find? (fun topic =>
    strContains item_id_lower (String.mk (topic.toList.filter (fun c => c ≠ '-'))) ||
    strContains item_id_lower topic)

def extract_topic_from_item_id (catalog : List (String × Item)) (item_id : String) :
    Except HTTPError String :=
  if item_id = "" then .error ⟨400, "item_id cannot be empty"⟩
  else
    let item_id_lower := strLower item_id
    match List.lookup item_id catalog with
    | some question => .ok (question.topic.getD "")
    | none =>
        match findPatternTopic item_id_lower with
        | some t => .ok t
        | none =>
            match findDirectTopic item_id_lower with
            | some t => .ok t
            | none =>
                .error ⟨400, "Cannot determine topic from item_id: " ++ item_id ++
                             ". Question may not exist in curriculum database."⟩

/- The base-XP table `{"Easy": 10, "Medium": 15, "Hard": 20}.get(complexity, 10)`
   (session.py line 289). -/
def base_xp_of (complexity : String) : Nat :=
  if complexity = "Easy" then 10 else if complexity = "Medium" then 15
  else if complexity = "Hard" then 20 else 10

/- The correctness-is-True branch of do_step (session.py lines 270-340). -/
def do_step_success (w3 : World) (session : Session) (item : Item)
    (next_prompt : Option String) (req : StepRequest) :
    World × Except HTTPError SessionStepResponse :=
  let tutor_response := pyOr next_prompt "Great job!"
  let w4 := add_to_conversation w3 req.session_id "tutor" tutor_response
  let w5 := mark_finished w4 req.session_id
  let learner_id := session.learner_id
  let item_id := session.item_id
  let w6 := mark_item_completed w5 learner_id item_id
  let w7 := clear_current_session w6 learner_id
  let complexity := item.complexity.getD "Easy"
  let marks := item.marks.getD 1
  let total_xp := base_xp_of complexity * marks
  let w8 := add_xp w7 learner_id total_xp
  let pw := get_profile w8 learner_id
  let learner_profile := pw.1
  let w9 := pw.2
  match extract_topic_from_item_id w9.items session.item_id with
  | .error e => (w9, .error e)
  | .ok topic_name =>
      let completed_item := List.lookup item_id w9.items
      let subtopic_filter := completed_item.bind Item.subtopic
      let next_item_id := recommend_next_session w9.items learner_profile topic_name
                            subtopic_filter
      match next_item_id with
      | some nid =>
          match List.lookup nid w9.items with
          | none => (w9, .error ⟨500, "AttributeError: NoneType has no attribute get"⟩)
          | some next_item =>
              let completion_message :=
                "🎉 Perfect! You've completed '" ++ item.title.getD "this problem" ++
                "'!\n\nReady for the next challenge? Let's move on to: '" ++
                next_item.title.getD "Next Problem" ++ "'"
              (w9, .ok { correctness := some true, next_prompt := some completion_message,
                         hint := none, tutor_message := some completion_message,
                         updates := { item_completed := some true,
                                      next_item_available := some true,
                                      next_item_id := some nid,
                                      next_item_title := some (next_item.title.getD "Next Problem"),
                                      xp_earned := some (item.telemetry_scoring_xp.getD 10) },
                         finished := true, step_id := none })
      | none =>
          let completion_message :=
            "🎉 Congratulations! You've completed '" ++ item.title.getD "this problem" ++
            "' and finished all available " ++ topic_name ++
            " topics!\n\nYou're now a " ++ topic_name ++ " expert! 🌟"
          (w9, .ok { correctness := some true, next_prompt := some completion_message,
                     hint := none, tutor_message := some completion_message,
                     updates := { item_completed := some true,
                                  progression_completed := some true,
                                  xp_earned := some (item.telemetry_scoring_xp.getD 10) },
                     finished := true, step_id := none })

/- do_step (session.py lines 225-350).  A missing item id is replaced by
   the empty dict (`ITEMS_REPO.get_item(...) or {}`, line 230).  The
   session dict fetched at line 227 aliases the repository entry, so the
   session is re-read after the conversation append. -/
def do_step (llm : Option LLMBehavior) (w : World) (req : StepRequest) :
    World × Except HTTPError SessionStepResponse :=
  match List.lookup req.session_id w.sessions with
  | none => (w, .error ⟨404, "Session not found"⟩)
  | some session =>
      let item := (List.lookup session.item_id w.items).getD emptyItem
      if session.finished then
        (w, .ok { correctness := some true, finished := true })
      else
        let w1 := add_to_conversation w req.session_id "student" req.user_response
        let session1 := (List.lookup req.session_id w1.sessions).getD session
        let ev := evaluate_simplified llm req.user_response item session1.attempts_current
                    (some session1)
        let correctness := ev.1
        let next_prompt := ev.2.1
        let hint := ev.2.2.1
        let evaluation_data := ev.2.2.2
        let w2 := append_step w1 req.session_id ⟨"main", req.user_response, correctness⟩
        let learning_insight := evaluation_data.learning_insight.getD ""
        let w3 := if strTrim learning_insight ≠ "" then
                    add_learning_insight w2 req.session_id (strTrim learning_insight)
                  else w2
        let misconception_tags := evaluation_data.misconception_tags.getD []
        let confidence_level := evaluation_data.confidence_level.getD 1
        let w4 := if misconception_tags ≠ [] then
                    record_misconceptions w3 req.session_id misconception_tags confidence_level
                  else w3
        match correctness with
        | none =>
            (w4, .ok { correctness := none, next_prompt := none,
                       hint := some (pyOr hint "Oops! I need a moment to think about your answer. Please try submitting it again!"),
                       tutor_message := some "I'm taking a moment to process your answer. Please try again!",
                       updates := { ai_error := some (evaluation_data.error.getD "AI evaluation system temporarily unavailable") },
                       finished := false, step_id := some "main" })
        | some true => do_step_success w4 session1 item next_prompt req
        | some false =>
            let tutor_hint := pyOr hint "Let me help you think through this."
            let w5 := add_to_conversation w4 req.session_id "tutor" tutor_hint
            let w6 := inc_attempt w5 req.session_id
            (w6, .ok { correctness := some false, next_prompt := none, hint := hint,
                       tutor_message := hint, updates := {}, finished := false,
                       step_id := some "main" })

structure SessionEndRequest where
  session_id : String
  deriving DecidableEq, Repr

structure EndResponse where
  session_id : String
  status : String
  deriving DecidableEq, Repr

/- end_session (session.py lines 395-399): a pure existence check plus an
   acknowledgment; it never calls InMemorySessionsRepo.mark_finished and
   leaves the repositories untouched. -/
def end_session (w : World) (req : SessionEndRequest) :
    World × Except HTTPError EndResponse :=
  match List.lookup req.session_id w.sessions with
  | none => (w, .error ⟨404, "Session not found"⟩)
  | some _ => (w, .ok ⟨req.session_id, "ended"⟩)

/- The verdict component of evaluate_simplified as a function of the
   client behaviour alone (the response and item never influence it). -/
def verdictOf : Option LLMBehavior → Option Bool
  | none => none
  | some (.raises _) => none
  | some (.returns r) => some (r.is_correct.getD false)

/-- Modelled from the spec (response normalization for the deterministic
match): strip whitespace, lower-case.  No shipped code applies this;
the definition exists only to state what the spec asserts about
evaluate_simplified. -/
def spec_normalize (s : String) : String := strLower (strTrim s)

/-- Modelled from the spec: the accepted-answer list
`[correct_answer] + alternative_answers` (orchestrator.py lines 34-36
builds the same list but never compares the response against it). -/
def spec_accepted_answers (item : Item) : List String :=
  (item.answer_details.getD {}).correct_answer.getD "" ::
    (item.answer_details.getD {}).alternative_answers.getD []

/- Boolean key-equality predicate, for stating stability of the
   progression sort. -/
def sameKey (k : ℤ ×ₗ ℤ ×ₗ ℚ) (e : ProgEntry) : Bool := decide (progKey e = k)

instance : IsTotal ProgEntry progKeyLE := ⟨fun a b => le_total (progKey a) (progKey b)⟩

instance : IsTrans ProgEntry progKeyLE := ⟨fun _ _ _ h h' => le_trans h h'⟩

instance {ε α : Type} [DecidableEq ε] [DecidableEq α] : DecidableEq (Except ε α) :=
  fun x y =>
    match x, y with
    | .ok a, .ok b =>
        if h : a = b then .isTrue (by rw [h])
        else .isFalse (by intro he; cases he; exact h rfl)
    | .error a, .error b =>
        if h : a = b then .isTrue (by rw [h])
        else .isFalse (by intro he; cases he; exact h rfl)
    | .ok _, .error _ => .isFalse (by intro h; cases h)
    | .error _, .ok _ => .isFalse (by intro h; cases h)

/- The net effect of the success branch on the learner profile: item
   marked completed (a no-op when already present), current-session
   pointer cleared, XP credited as base_xp(complexity) × marks. -/
def completedProfileUpdate (p : Profile) (item_id : String) (item : Item) : Profile :=
  { p with
    completed_items :=
      if p.completed_items.contains item_id then p.completed_items
      else p.completed_items ++ [item_id],
    current_session_id := none,
    xp := p.xp + base_xp_of (item.complexity.getD "Easy") * item.marks.getD 1 }

/- Concrete fixtures for witnesses and counterexamples. -/

def testItem (n : Nat) : String × Item :=
  ("ALGEBRA-INTRO-Q" ++ toString n,
   { id := some ("ALGEBRA-INTRO-Q" ++ toString n), topic := some "algebra",
     sub_topic := some "introduction-to-algebra", subtopic := some "introduction-to-algebra",
     complexity := some "Easy", title := some ("Problem " ++ toString n),
     problem_text := some "Simplify." })

def cat20 : List (String × Item) := (List.range 20).map (fun i => testItem (i + 1))

def item_b4 : Item :=
  { answer_details := some { correct_answer := some "b+4", alternative_answers := some ["4+b"] },
    complexity := some "Easy", problem_text := some "Simplify b + 2 + 2." }

def itemTie : Item := { topic := some "tie" }

def catTie : List (String × Item) := [("TIE-B", itemTie), ("TIE-A", itemTie)]

def catTieRev : List (String × Item) := [("TIE-A", itemTie), ("TIE-B", itemTie)]

def sessFix (sid lid iid : String) : Session :=
  { id := sid, learner_id := lid, item_id := iid }

def wFix : World :=
  { items := cat20,
    sessions := [("s1", sessFix "s1" "learner-1" "ALGEBRA-INTRO-Q1")],
    profiles := [("learner-1", { learner_id := "learner-1", xp := 5,
                                 current_session_id := some "s1" })] }

def reqFix : StepRequest := ⟨"s1", "main", "b+4"⟩

def wGhost : World :=
  { items := [], sessions := [("s2", sessFix "s2" "L2" "GHOST-ITEM")], profiles := [] }

/- Helper lemmas. -/

theorem lookup_dictModify_self {β : Type} (l : List (String × β)) (k : String)
    (f : β → β) : List.lookup k (dictModify l k f) = (List.lookup k l).map f := by
  induction l with
  | nil => rfl
  | cons p t ih =>
      obtain ⟨k', v'⟩ := p
      by_cases h : k' = k
      · subst h
        simp [dictModify, List.lookup]
      · have hne : (k == k') = false := beq_eq_false_iff_ne.mpr (Ne.symm h)
        simp [dictModify, h, List.lookup, hne, ih]

@[simp] theorem add_to_conversation_items (w : World) (sid role message : String) :
    (add_to_conversation w sid role message).items = w.items := rfl

@[simp] theorem add_to_conversation_profiles (w : World) (sid role message : String) :
    (add_to_conversation w sid role message).profiles = w.profiles := rfl

@[simp] theorem append_step_items (w : World) (sid : String) (st : StepRec) :
    (append_step w sid st).items = w.items := rfl

@[simp] theorem append_step_profiles (w : World) (sid : String) (st : StepRec) :
    (append_step w sid st).profiles = w.profiles := rfl

theorem lookup_add_to_conversation (w : World) (sid role message : String) :
    List.lookup sid (add_to_conversation w sid role message).sessions =
      (List.lookup sid w.sessions).map
        (fun s => { s with conversation_history := s.conversation_history ++ [⟨role, message⟩] }) :=
  lookup_dictModify_self ..

theorem lookup_append_step (w : World) (sid : String) (st : StepRec) :
    List.lookup sid (append_step w sid st).sessions =
      (List.lookup sid w.sessions).map (fun s => { s with steps := s.steps ++ [st] }) :=
  lookup_dictModify_self ..

/- do_step under an unknown verdict: the common core shared by the
   error-handling claims.  The returned world only gains the student
   conversation entry and the step record; the response is the retry
   answer with updates.ai_error set. -/
theorem do_step_unknown_core (llm : Option LLMBehavior) (w : World) (req : StepRequest)
    (s : Session) (hs : List.lookup req.session_id w.sessions = some s)
    (hf : s.finished = false) (hv : verdictOf llm = none) :
    ∃ hint0 : Option String, ∃ e : EvalData,
      do_step llm w req =
        (append_step (add_to_conversation w req.session_id "student" req.user_response)
            req.session_id ⟨"main", req.user_response, none⟩,
         .ok { correctness := none, next_prompt := none,
               hint := some (pyOr hint0 "Oops! I need a moment to think about your answer. Please try submitting it again!"),
               tutor_message := some "I'm taking a moment to process your answer. Please try again!",
               updates := { ai_error := some (e.error.getD "AI evaluation system temporarily unavailable") },
               finished := false, step_id := some "main" }) ∧
      (∀ msg, llm = some (.raises msg) →
        e = { error := some ("AI_EVALUATION_FAILED: " ++ msg) }) := by
  match llm, hv with
  | none, _ =>
      refine ⟨some "I need to think about this. Let's try again.", {}, ?_, ?_⟩
      · simp only [do_step, hs, hf, lookup_add_to_conversation, Option.map_some,
          Option.getD_some, evaluate_simplified]
        rfl
      · intro msg h
        cases h
  | some (.raises msg), _ =>
      refine ⟨some "Oops! I need a moment to think about your answer. Please try submitting it again!",
              { error := some ("AI_EVALUATION_FAILED: " ++ msg) }, ?_, ?_⟩
      · simp only [do_step, hs, hf, lookup_add_to_conversation, Option.map_some,
          Option.getD_some, evaluate_simplified]
        rfl
      · intro msg' h
        cases h
        rfl

/-- C9: the symbolic-equivalence check accepts ("b+4", "4+b"), rejects
("b+4", "b+5"), and for every pair with an unparsable side returns false
(the try/except wrapper turns every parser exception into False, and the
embedding is a total function, so no exception escapes). -/
theorem cas_equivalent_claim :
    cas_equivalent "b+4" "4+b" = true ∧
    cas_equivalent "b+4" "b+5" = false ∧
    ∀ u t : String, (casParse u = none ∨ casParse t = none) → cas_equivalent u t = false := by
  refine ⟨by decide, by decide, ?_⟩
  intro u t h
  rcases h with h | h
  · cases ht : casParse t <;> simp [cas_equivalent, h, ht]
  · cases hu : casParse u <;> simp [cas_equivalent, hu, h]

/-- C9 witness: "(b" does not parse, and cas_equivalent "(b" "b+4" is false. -/
theorem cas_equivalent_claim_witness :
    casParse "(b" = none ∧ cas_equivalent "(b" "b+4" = false :=
  ⟨by decide, cas_equivalent_claim.2.2 "(b" "b+4" (Or.inl (by decide))⟩

/-- C10: evaluate_simplified is total at its interface; with a client
whose generate/parse_json_response call raises — which is every shipped
non-None client, since neither LLMClient nor GeminiLLM defines those
methods — it returns correctness = none (never true, never false) with
metadata error "AI_EVALUATION_FAILED: <exception>", and with no client it
returns correctness = none with an empty metadata dict. -/
theorem evaluate_simplified_shipped_spec :
    ∀ (msg user_response : String) (item : Item) (attempts : Nat) (session : Option Session),
      evaluate_simplified (some (.raises msg)) user_response item attempts session =
        (none, none,
         some "Oops! I need a moment to think about your answer. Please try submitting it again!",
         { error := some ("AI_EVALUATION_FAILED: " ++ msg) }) ∧
      evaluate_simplified none user_response item attempts session =
        (none, none, some "I need to think about this. Let's try again.", {}) :=
  fun _ _ _ _ _ => ⟨rfl, rfl⟩

/-- C1 counterexample: the response " B+4 " normalizes to the accepted
answer "b+4" of item_b4, yet evaluate_simplified never performs the
deterministic match: with the shipped (raising) client the verdict is
none, and with a judge that answers is_correct=false the verdict is
false — in neither case the claimed terminal correctness=true. -/
theorem deterministic_match_counterexample :
    spec_normalize " B+4 " ∈ (spec_accepted_answers item_b4).map spec_normalize ∧
    (evaluate_simplified
        (some (.raises "AttributeError: 'GeminiLLM' object has no attribute 'generate'"))
        " B+4 " item_b4 0 none).1 = none ∧
    (evaluate_simplified
        (some (.returns { is_correct := some false, feedback := some "Try again",
                          should_advance := some false }))
        " B+4 " item_b4 0 none).1 = some false := by
  decide

/-- C1 amended: evaluate_simplified performs no deterministic match; even
when the normalized response equals an accepted answer, the verdict is
exactly the judge outcome — none when the client call raises (every
shipped client), and the parsed is_correct field (defaulting to false)
when a client returns a parsed dict. -/
theorem evaluate_simplified_no_deterministic_match :
    ∀ (item : Item) (resp : String) (attempts : Nat) (session : Option Session),
      spec_normalize resp ∈ (spec_accepted_answers item).map spec_normalize →
      (∀ msg, (evaluate_simplified (some (.raises msg)) resp item attempts session).1 = none) ∧
      (∀ r, (evaluate_simplified (some (.returns r)) resp item attempts session).1 =
              some (r.is_correct.getD false)) := by
  intro item resp attempts session _
  exact ⟨fun _ => rfl, fun _ => rfl⟩

/-- C1 amended witness at the exact-match response "b+4" for item_b4. -/
theorem evaluate_simplified_no_deterministic_match_witness :
    (evaluate_simplified (some (.raises "e")) "b+4" item_b4 0 none).1 = none ∧
    (evaluate_simplified
        (some (.returns { is_correct := some true, feedback := some "Yes",
                          should_advance := some true })) "b+4" item_b4 0 none).1 = some true := by
  have h := evaluate_simplified_no_deterministic_match item_b4 "b+4" 0 none (by decide)
  exact ⟨h.1 "e", h.2 _⟩

/-- C2 counterexample: for the unparsable judge text "The student is
correct!", the Gemini response processing substitutes the fallback dict
with is_correct=false (a defaulted incorrect verdict, no error field),
and the orchestrator's evaluate returns correctness = none with a result
dict that carries no error marker — not the claimed
correctness=unknown-with-metadata.error. -/
theorem judge_malformed_counterexample :
    evaluate_and_respond (.badJson "The student is correct!") = geminiFallback ∧
    geminiFallback.is_correct = some false ∧
    orchestrator_evaluate (some (.badJson "The student is correct!")) "4" =
      (none, none,
       some "Let me help you think through this step by step. What operation do you think we need here?",
       some { learning_insight := "", misconception_tags := [], confidence_level := 1 }) := by
  decide

/-- C2 amended: a judge response that raises, yields no text, is
unparsable, or lacks a required field (is_correct/response/
should_advance) is replaced by a hard-coded fallback whose verdict is
is_correct=false, should_advance=false; the orchestrator's evaluate then
reports correctness = none (unknown) with an error-free result dict;
only evaluate_simplified's exception path sets metadata.error. -/
theorem judge_malformed_spec :
    (∀ text, evaluate_and_respond (.badJson text) = geminiFallback) ∧
    evaluate_and_respond .noText = geminiFallback ∧
    (∀ j : JudgeJson, j.is_correct = none ∨ j.response = none ∨ j.should_advance = none →
      evaluate_and_respond (.json j) = geminiFallback) ∧
    (∀ text resp, orchestrator_evaluate (some (.badJson text)) resp =
      (none, none,
       some "Let me help you think through this step by step. What operation do you think we need here?",
       some { learning_insight := "", misconception_tags := [], confidence_level := 1 })) ∧
    (∀ (msg resp : String) (item : Item) (attempts : Nat) (session : Option Session),
      (evaluate_simplified (some (.raises msg)) resp item attempts session).2.2.2.error =
        some ("AI_EVALUATION_FAILED: " ++ msg)) := by
  refine ⟨fun _ => rfl, rfl, ?_, fun _ _ => rfl, fun _ _ _ _ _ => rfl⟩
  intro j h
  have hc : ¬(j.is_correct.isSome ∧ j.response.isSome ∧ j.should_advance.isSome) := by
    rcases h with h | h | h <;> simp [h]
  simp [evaluate_and_respond, hc]

/-- C2 amended witness: a parsed dict missing should_advance falls back. -/
theorem judge_malformed_spec_witness :
    evaluate_and_respond
      (.json { is_correct := some true, response := some "Good", should_advance := none }) =
      geminiFallback :=
  judge_malformed_spec.2.2.1 _ (Or.inr (Or.inr rfl))

/-- C7 counterexample: ending an unfinished session returns "ended" but
does not mark the session finished — end_session never mutates state. -/
theorem end_session_counterexample :
    (end_session wFix ⟨"s1"⟩).2 = .ok ⟨"s1", "ended"⟩ ∧
    (List.lookup "s1" (end_session wFix ⟨"s1"⟩).1.sessions).map Session.finished =
      some false := by
  decide

/-- C7 amended: for every existing session, end returns "ended" and
leaves the entire state — in particular the finished/success fields —
unchanged; calling it twice therefore returns "ended" both times with no
state change, but it never marks an unfinished session finished. -/
theorem end_session_spec :
    ∀ (w : World) (req : SessionEndRequest) (s : Session),
      List.lookup req.session_id w.sessions = some s →
      end_session w req = (w, .ok ⟨req.session_id, "ended"⟩) := by
  intro w req s h
  simp [end_session, h]

/-- C7 amended witness at the fixture world. -/
theorem end_session_spec_witness :
    end_session wFix ⟨"s1"⟩ = (wFix, .ok ⟨"s1", "ended"⟩) :=
  end_session_spec wFix ⟨"s1"⟩ (sessFix "s1" "learner-1" "ALGEBRA-INTRO-Q1") (by decide)

/-- C3: a step on an unfinished session whose evaluator verdict is
unknown (correctness = None) leaves the session unfinished, does not
increment attempts_current, and returns a retry message whose updates
surface the evaluator's error (the AI_EVALUATION_FAILED message when the
client raised, a generic unavailability message otherwise). -/
theorem do_step_unknown_verdict_claim :
    ∀ (llm : Option LLMBehavior) (w : World) (req : StepRequest) (s : Session),
      List.lookup req.session_id w.sessions = some s →
      s.finished = false →
      verdictOf llm = none →
      ∃ w' resp, do_step llm w req = (w', .ok resp) ∧
        resp.correctness = none ∧ resp.finished = false ∧
        resp.tutor_message = some "I'm taking a moment to process your answer. Please try again!" ∧
        (∃ err, resp.updates.ai_error = some err) ∧
        (∀ msg, llm = some (.raises msg) →
          resp.updates.ai_error = some ("AI_EVALUATION_FAILED: " ++ msg)) ∧
        (List.lookup req.session_id w'.sessions).map Session.attempts_current =
          some s.attempts_current ∧
        (List.lookup req.session_id w'.sessions).map Session.finished = some false := by
  intro llm w req s hs hf hv
  obtain ⟨hint0, e, hcore, herr⟩ := do_step_unknown_core llm w req s hs hf hv
  refine ⟨_, _, hcore, rfl, rfl, rfl, ⟨_, rfl⟩, ?_, ?_, ?_⟩
  · intro msg h
    simp [herr msg h]
  · rw [lookup_append_step, lookup_add_to_conversation, hs]
    rfl
  · rw [lookup_append_step, lookup_add_to_conversation, hs]
    simp [hf]

/-- C3 witness: stepping the fixture session with no configured client. -/
theorem do_step_unknown_verdict_claim_witness :
    ∃ w' resp, do_step none wFix reqFix = (w', .ok resp) ∧
      resp.correctness = none ∧ resp.finished = false ∧
      resp.tutor_message = some "I'm taking a moment to process your answer. Please try again!" ∧
      (∃ err, resp.updates.ai_error = some err) ∧
      (∀ msg, none = some (LLMBehavior.raises msg) →
        resp.updates.ai_error = some ("AI_EVALUATION_FAILED: " ++ msg)) ∧
      (List.lookup reqFix.session_id w'.sessions).map Session.attempts_current = some 0 ∧
      (List.lookup reqFix.session_id w'.sessions).map Session.finished = some false :=
  do_step_unknown_verdict_claim none wFix reqFix
    (sessFix "s1" "learner-1" "ALGEBRA-INTRO-Q1") (by decide) (by decide) rfl

/-- C8 counterexample: stepping a session whose item id is absent from
the catalog does not abort with a not-found error — the code substitutes
an empty item dict and returns an ok response; looking up an unknown
learner fabricates and stores a default profile; and the
session-not-found detail does not name the missing identifier. -/
theorem notfound_counterexample :
    (do_step (some (.raises "e")) wGhost ⟨"s2", "main", "x"⟩).2 =
      .ok { correctness := none, next_prompt := none,
            hint := some "Oops! I need a moment to think about your answer. Please try submitting it again!",
            tutor_message := some "I'm taking a moment to process your answer. Please try again!",
            updates := { ai_error := some "AI_EVALUATION_FAILED: e" },
            finished := false, step_id := some "main" } ∧
    get_profile ⟨[], [], []⟩ "ghost-learner" =
      (defaultProfile "ghost-learner",
       ⟨[], [], [("ghost-learner", defaultProfile "ghost-learner")]⟩) ∧
    (do_step (some (.raises "e")) ⟨[], [], []⟩ ⟨"missing", "main", "x"⟩).2 =
      .error ⟨404, "Session not found"⟩ ∧
    strContains "Session not found" "missing" = false := by
  decide

/-- C8 amended: only session lookups abort, with a 404 whose generic
detail does not name the identifier; a missing item in do_step is
replaced by the empty dict and the step proceeds instead of aborting;
an unknown learner receives a fabricated default profile that is stored
in the repository. -/
theorem notfound_spec :
    (∀ (llm : Option LLMBehavior) (w : World) (req : StepRequest),
      List.lookup req.session_id w.sessions = none →
      do_step llm w req = (w, .error ⟨404, "Session not found"⟩)) ∧
    (∀ (w : World) (req : SessionEndRequest),
      List.lookup req.session_id w.sessions = none →
      end_session w req = (w, .error ⟨404, "Session not found"⟩)) ∧
    (∀ (w : World) (lid : String), List.lookup lid w.profiles = none →
      get_profile w lid =
        (defaultProfile lid, { w with profiles := w.profiles ++ [(lid, defaultProfile lid)] })) ∧
    (∀ (msg : String) (w : World) (req : StepRequest) (s : Session),
      List.lookup req.session_id w.sessions = some s → s.finished = false →
      List.lookup s.item_id w.items = none →
      ∃ resp, (do_step (some (.raises msg)) w req).2 = .ok resp ∧ resp.correctness = none) := by
  refine ⟨?_, ?_, ?_, ?_⟩
  · intro llm w req h
    simp [do_step, h]
  · intro w req h
    simp [end_session, h]
  · intro w lid h
    simp [get_profile, h]
  · intro msg w req s hs hf _
    obtain ⟨hint0, e, hcore, -⟩ := do_step_unknown_core (some (.raises msg)) w req s hs hf rfl
    rw [hcore]
    exact ⟨_, rfl, rfl⟩

/-- C8 amended witness: a missing session id, a fabricated profile, and
a step with a missing item that still completes. -/
theorem notfound_spec_witness :
    do_step none ⟨[], [], []⟩ ⟨"nope", "main", "x"⟩ =
      (⟨[], [], []⟩, .error ⟨404, "Session not found"⟩) ∧
    get_profile ⟨[], [], []⟩ "g" =
      (defaultProfile "g", ⟨[], [], [("g", defaultProfile "g")]⟩) ∧
    (∃ resp, (do_step (some (.raises "boom")) wGhost ⟨"s2", "main", "x"⟩).2 = .ok resp ∧
      resp.correctness = none) :=
  ⟨notfound_spec.1 none ⟨[], [], []⟩ ⟨"nope", "main", "x"⟩ (by decide),
   notfound_spec.2.2.1 ⟨[], [], []⟩ "g" (by decide),
   notfound_spec.2.2.2 "boom" wGhost ⟨"s2", "main", "x"⟩ (sessFix "s2" "L2" "GHOST-ITEM")
     (by decide) (by decide) (by decide)⟩

theorem findIdx?_isSome_of_mem {a : String} :
    ∀ {l : List String}, a ∈ l → ∀ i : Nat, (List.findIdx? (· == a) l i).isSome := by
  intro l
  induction l with
  | nil => intro h; cases h
  | cons x xs ih =>
      intro h i
      rw [List.findIdx?]
      by_cases hx : x == a
      · simp [hx]
      · have : a ∈ xs := by
          rcases List.mem_cons.mp h with h' | h'
          · exact absurd (beq_iff_eq.mpr h'.symm) hx
          · exact h'
        simp only [hx, if_neg]
        simpa using ih this (i + 1)

/-- C4: recommend_next_session returns none on an empty progression; the
first item when no completed item lies in the progression; otherwise it
takes the last completed item within scope, locates its position, and
returns the first later progression item outside the completed set
(get_next_item_id scans from the start when the current item is not in
the progression); it returns none rather than an error when everything
is completed; and on the concrete Q1..Q20 progression with completed
[Q1, Q3] the next item after Q3 is Q4. -/
theorem recommend_next_session_claim :
    ∀ (catalog : List (String × Item)) (profile : Profile) (topic : String)
      (subf : Option String),
      (get_topic_progression catalog topic subf = [] →
        recommend_next_session catalog profile topic subf = none) ∧
      ((∀ id ∈ profile.completed_items, id ∉ get_topic_progression catalog topic subf) →
        recommend_next_session catalog profile topic subf =
          (get_topic_progression catalog topic subf).head?) ∧
      (∀ (last : String) (i : Nat),
        (profile.completed_items.filter
            (fun id => (get_topic_progression catalog topic subf).contains id)).getLast? =
          some last →
        (get_topic_progression catalog topic subf).findIdx? (· == last) = some i →
        recommend_next_session catalog profile topic subf =
          ((get_topic_progression catalog topic subf).drop (i + 1)).find?
            (fun id => !(profile.completed_items.contains id))) ∧
      (∀ (current : String) (completed' : List String),
        (get_topic_progression catalog topic subf).findIdx? (· == current) = none →
        get_next_item_id catalog current completed' topic subf =
          (get_topic_progression catalog topic subf).find?
            (fun id => !(completed'.contains id))) ∧
      ((∀ id ∈ get_topic_progression catalog topic subf, id ∈ profile.completed_items) →
        recommend_next_session catalog profile topic subf = none) ∧
      (get_next_item_id cat20 "ALGEBRA-INTRO-Q3" ["ALGEBRA-INTRO-Q1", "ALGEBRA-INTRO-Q3"]
          "algebra" (some "introduction-to-algebra") = some "ALGEBRA-INTRO-Q4" ∧
        recommend_next_session cat20
          { learner_id := "L", completed_items := ["ALGEBRA-INTRO-Q1", "ALGEBRA-INTRO-Q3"] }
          "algebra" (some "introduction-to-algebra") = some "ALGEBRA-INTRO-Q4") := by
  intro catalog profile topic subf
  refine ⟨?_, ?_, ?_, ?_, ?_, by decide, by decide⟩
  · intro h
    simp [recommend_next_session, h]
  · intro h
    have hfil : profile.completed_items.filter
        (fun id => (get_topic_progression catalog topic subf).contains id) = [] := by
      refine List.filter_eq_nil_iff.mpr ?_
      intro a ha
      simpa using h a ha
    by_cases hp : get_topic_progression catalog topic subf = []
    · simp [recommend_next_session, hp]
    · have hc : ¬((get_topic_progression catalog topic subf).isEmpty = true) := by
        simp [List.isEmpty_iff, hp]
      simp only [recommend_next_session]
      rw [if_neg hc, hfil]
      rfl
  · intro last i hlast hidx
    have hml : last ∈ profile.completed_items.filter
        (fun id => (get_topic_progression catalog topic subf).contains id) :=
      List.mem_of_mem_getLast? hlast
    have hmem : last ∈ get_topic_progression catalog topic subf := by
      have := (List.mem_filter.mp hml).2
      simpa using this
    have hp : get_topic_progression catalog topic subf ≠ [] := by
      intro h0
      rw [h0] at hmem
      cases hmem
    have hc : ¬((get_topic_progression catalog topic subf).isEmpty = true) := by
      simp [List.isEmpty_iff, hp]
    simp only [recommend_next_session]
    rw [if_neg hc, hlast]
    simp only [get_next_item_id]
    rw [hidx]
  · intro current completed' h
    simp [get_next_item_id, h]
  · intro h
    by_cases hp : get_topic_progression catalog topic subf = []
    · simp [recommend_next_session, hp]
    · obtain ⟨x, hx⟩ := List.exists_mem_of_ne_nil _ hp
      have hxc : x ∈ profile.completed_items := h x hx
      have hfil : x ∈ profile.completed_items.filter
          (fun id => (get_topic_progression catalog topic subf).contains id) :=
        List.mem_filter.mpr ⟨hxc, by simpa using hx⟩
      rcases hlast : (profile.completed_items.filter
          (fun id => (get_topic_progression catalog topic subf).contains id)).getLast? with
        _ | last
      · rw [List.getLast?_eq_none_iff] at hlast
        rw [hlast] at hfil
        cases hfil
      · have hml := List.mem_of_mem_getLast? hlast
        have hmem : last ∈ get_topic_progression catalog topic subf := by
          have := (List.mem_filter.mp hml).2
          simpa using this
        have hsome := findIdx?_isSome_of_mem hmem 0
        rcases hidx : (get_topic_progression catalog topic subf).findIdx? (· == last) with
          _ | i
        · rw [hidx] at hsome
          cases hsome
        · have hnone : ((get_topic_progression catalog topic subf).drop (i + 1)).find?
              (fun id => !(profile.completed_items.contains id)) = none := by
            refine List.find?_eq_none.mpr ?_
            intro y hy
            have : y ∈ get_topic_progression catalog topic subf := List.mem_of_mem_drop hy
            simp [h y this]
          have hc : ¬((get_topic_progression catalog topic subf).isEmpty = true) := by
            simp [List.isEmpty_iff, hp]
          simp only [recommend_next_session]
          rw [if_neg hc, hlast]
          simp only [get_next_item_id]
          rw [hidx]
          exact hnone

/-- C4 witness: an empty completed set recommends the first item, which
on the concrete catalog is Q1. -/
theorem recommend_next_session_claim_witness :
    recommend_next_session cat20 { learner_id := "L" } "algebra"
        (some "introduction-to-algebra") =
      (get_topic_progression cat20 "algebra" (some "introduction-to-algebra")).head? ∧
    (get_topic_progression cat20 "algebra" (some "introduction-to-algebra")).head? =
      some "ALGEBRA-INTRO-Q1" :=
  ⟨(recommend_next_session_claim cat20 { learner_id := "L" } "algebra"
      (some "introduction-to-algebra")).2.1 (by simp),
   by decide⟩

theorem sameKey_eq {k : ℤ ×ₗ ℤ ×ₗ ℚ} {e : ProgEntry} (h : sameKey k e = true) :
    progKey e = k :=
  of_decide_eq_true h

theorem filter_sameKey_orderedInsert (x : ProgEntry) (l : List ProgEntry)
    (k : ℤ ×ₗ ℤ ×ₗ ℚ) :
    (List.orderedInsert progKeyLE x l).filter (sameKey k) =
      if sameKey k x then x :: l.filter (sameKey k) else l.filter (sameKey k) := by
  induction l with
  | nil => simp [List.orderedInsert, List.filter_cons]
  | cons y t ih =>
      by_cases hle : progKeyLE x y
      · rw [List.orderedInsert, if_pos hle]
        by_cases hx : sameKey k x <;> simp [List.filter_cons, hx]
      · rw [List.orderedInsert, if_neg hle]
        have hlt : progKey y < progKey x := lt_of_not_le hle
        by_cases hx : sameKey k x <;> by_cases hy : sameKey k y
        · have : progKey y = progKey x := by rw [sameKey_eq hx, sameKey_eq hy]
          exact absurd this (ne_of_lt hlt)
        · simp [List.filter_cons, hx, hy, ih]
        · simp [List.filter_cons, hx, hy, ih]
        · simp [List.filter_cons, hx, hy, ih]

theorem filter_sameKey_insertionSort (l : List ProgEntry) (k : ℤ ×ₗ ℤ ×ₗ ℚ) :
    (List.insertionSort progKeyLE l).filter (sameKey k) = l.filter (sameKey k) := by
  induction l with
  | nil => rfl
  | cons x t ih =>
      rw [List.insertionSort, filter_sameKey_orderedInsert, ih]
      by_cases hx : sameKey k x <;> simp [List.filter_cons, hx]

/-- C5 amended: the progression sort key is the lexicographic triple
(subtopicOrder, questionNumber, difficulty); subtopicOrder truncates
10 × the leading decimal of the label (so "1.2 ..." → 12, with
absent/unparsable labels → 0), questionNumber parses the trailing -Q
suffix (absent → 0), difficulty maps Easy→0.3, Medium→0.6, Hard→0.9;
the progression is the stable ascending sort on this key: sorted, a
permutation of the discovered entries, and with each key class kept in
catalog enumeration order.  Ties are NOT broken by item id (see the
counterexample), so determinism is only up to catalog order. -/
theorem progression_order_claim :
    extract_subtopic_order "1.1 Algebra Basics" = 11 ∧
    extract_subtopic_order "1.2 Simplifying Expressions" = 12 ∧
    extract_subtopic_order "2.1 Fractions" = 21 ∧
    extract_subtopic_order "" = 0 ∧
    extract_subtopic_order "Introduction to Algebra" = 0 ∧
    extract_question_number "ALGEBRA-INTRO-Q1" = 1 ∧
    extract_question_number "ALGEBRA-INTRO-Q2" = 2 ∧
    extract_question_number "ALGEBRA-INTRO" = 0 ∧
    difficultyMap "Easy" = mkRat 3 10 ∧
    difficultyMap "Medium" = mkRat 6 10 ∧
    difficultyMap "Hard" = mkRat 9 10 ∧
    (∀ (c : List (String × Item)) (t : String) (f : Option String),
      get_topic_progression c t f =
        (List.insertionSort progKeyLE (prog_entries c t f)).map ProgEntry.id) ∧
    (∀ (c : List (String × Item)) (t : String) (f : Option String),
      List.Sorted progKeyLE (List.insertionSort progKeyLE (prog_entries c t f))) ∧
    (∀ (c : List (String × Item)) (t : String) (f : Option String),
      List.Perm (List.insertionSort progKeyLE (prog_entries c t f)) (prog_entries c t f)) ∧
    (∀ (c : List (String × Item)) (t : String) (f : Option String) (k : ℤ ×ₗ ℤ ×ₗ ℚ),
      (List.insertionSort progKeyLE (prog_entries c t f)).filter (sameKey k) =
        (prog_entries c t f).filter (sameKey k)) :=
  ⟨by decide, by decide, by decide, by decide, by decide, by decide, by decide,
   by decide, by decide, by decide, by decide, fun _ _ _ => rfl,
   fun _ _ _ => List.sorted_insertionSort _ _,
   fun _ _ _ => List.perm_insertionSort _ _,
   fun _ _ _ k => filter_sameKey_insertionSort _ k⟩

/-- C5 counterexample: two items with identical sort keys come out in
catalog enumeration order, not item-id order — reversing the catalog
reverses the progression, so there is no stable tie-break by item id and
the recommendation is not id-deterministic. -/
theorem progression_order_counterexample :
    progKey (progEntry "TIE-A" itemTie) = progKey (progEntry "TIE-B" itemTie) ∧
    get_topic_progression catTie "tie" none = ["TIE-B", "TIE-A"] ∧
    get_topic_progression catTieRev "tie" none = ["TIE-A", "TIE-B"] := by
  decide

/- Supporting lemmas for the success-branch claim. -/

theorem lookup_dictSet_self {β : Type} (l : List (String × β)) (k : String) (v : β) :
    List.lookup k (dictSet l k v) = some v := by
  induction l with
  | nil => simp [dictSet, List.lookup]
  | cons p t ih =>
      obtain ⟨k', v'⟩ := p
      by_cases h : k' = k
      · subst h
        simp [dictSet, List.lookup]
      · have hne : (k == k') = false := beq_eq_false_iff_ne.mpr (Ne.symm h)
        simp [dictSet, h, List.lookup, hne, ih]

theorem dictSet_lookup_self {β : Type} (l : List (String × β)) (k : String) (v : β)
    (h : List.lookup k l = some v) : dictSet l k v = l := by
  induction l with
  | nil => simp [List.lookup] at h
  | cons p t ih =>
      obtain ⟨k', v'⟩ := p
      by_cases hk : k' = k
      · subst hk
        simp [List.lookup] at h
        simp [dictSet, h]
      · have hne : (k == k') = false := beq_eq_false_iff_ne.mpr (Ne.symm hk)
        simp [List.lookup, hne] at h
        simp [dictSet, hk, ih h]

@[simp] theorem mark_finished_items (w : World) (sid : String) :
    (mark_finished w sid).items = w.items := rfl

@[simp] theorem mark_finished_profiles (w : World) (sid : String) :
    (mark_finished w sid).profiles = w.profiles := rfl

@[simp] theorem add_learning_insight_items (w : World) (sid m : String) :
    (add_learning_insight w sid m).items = w.items := rfl

@[simp] theorem add_learning_insight_profiles (w : World) (sid m : String) :
    (add_learning_insight w sid m).profiles = w.profiles := rfl

@[simp] theorem mark_item_completed_items (w : World) (lid iid : String) :
    (mark_item_completed w lid iid).items = w.items := by
  unfold mark_item_completed get_profile
  cases List.lookup lid w.profiles <;> rfl

@[simp] theorem mark_item_completed_sessions (w : World) (lid iid : String) :
    (mark_item_completed w lid iid).sessions = w.sessions := by
  unfold mark_item_completed get_profile
  cases List.lookup lid w.profiles <;> rfl

@[simp] theorem clear_current_session_items (w : World) (lid : String) :
    (clear_current_session w lid).items = w.items := by
  unfold clear_current_session get_profile
  cases List.lookup lid w.profiles <;> rfl

@[simp] theorem clear_current_session_sessions (w : World) (lid : String) :
    (clear_current_session w lid).sessions = w.sessions := by
  unfold clear_current_session get_profile
  cases List.lookup lid w.profiles <;> rfl

@[simp] theorem add_xp_items (w : World) (lid : String) (n : Nat) :
    (add_xp w lid n).items = w.items := by
  unfold add_xp get_profile
  cases List.lookup lid w.profiles <;> rfl

@[simp] theorem add_xp_sessions (w : World) (lid : String) (n : Nat) :
    (add_xp w lid n).sessions = w.sessions := by
  unfold add_xp get_profile
  cases List.lookup lid w.profiles <;> rfl

theorem lookup_mark_item_completed (w : World) (lid iid : String) :
    List.lookup lid (mark_item_completed w lid iid).profiles =
      some (let p := (List.lookup lid w.profiles).getD (defaultProfile lid)
            { p with completed_items :=
                if p.completed_items.contains iid then p.completed_items
                else p.completed_items ++ [iid] }) := by
  unfold mark_item_completed get_profile
  cases h : List.lookup lid w.profiles <;> simp [h, lookup_dictSet_self]

theorem lookup_clear_current_session (w : World) (lid : String) :
    List.lookup lid (clear_current_session w lid).profiles =
      some { (List.lookup lid w.profiles).getD (defaultProfile lid) with
             current_session_id := none } := by
  unfold clear_current_session get_profile
  cases h : List.lookup lid w.profiles <;> simp [h, lookup_dictSet_self]

theorem lookup_add_xp (w : World) (lid : String) (n : Nat) :
    List.lookup lid (add_xp w lid n).profiles =
      some (let p := (List.lookup lid w.profiles).getD (defaultProfile lid)
            { p with xp := p.xp + n }) := by
  unfold add_xp get_profile
  cases h : List.lookup lid w.profiles <;> simp [h, lookup_dictSet_self]

theorem mem_prog_lookup (c : List (String × Item)) (t : String) (f : Option String)
    (id : String) (h : id ∈ get_topic_progression c t f) :
    ∃ it : Item, List.lookup id c = some it := by
  unfold get_topic_progression at h
  obtain ⟨e, he, heid⟩ := List.mem_map.mp h
  have he' : e ∈ prog_entries c t f := (List.perm_insertionSort _ _).subset he
  unfold prog_entries at he'
  obtain ⟨iid, hiid, hmap⟩ := List.mem_filterMap.mp he'
  cases hl : List.lookup iid c with
  | none => rw [hl] at hmap; cases hmap
  | some it =>
      rw [hl] at hmap
      have heq : e = progEntry iid it := by
        by_cases hp : pyTruthyStr f
        · simp only [hp, if_true] at hmap
          by_cases hm : matches_subtopic iid (progEntry iid it).sub_topic (f.getD "")
          · simp only [hm, if_true] at hmap
            exact (Option.some_injective _ hmap).symm
          · simp only [hm] at hmap
            simp at hmap
        · simp only [hp] at hmap
          simp at hmap
          exact hmap.symm
      have : id = iid := by
        rw [← heid, heq]
        rfl
      exact ⟨it, this ▸ hl⟩

theorem recommend_mem (c : List (String × Item)) (p : Profile) (t : String)
    (f : Option String) (nid : String)
    (h : recommend_next_session c p t f = some nid) :
    nid ∈ get_topic_progression c t f := by
  unfold recommend_next_session at h
  by_cases hp : (get_topic_progression c t f).isEmpty
  · rw [if_pos hp] at h
    cases h
  · rw [if_neg hp] at h
    dsimp only at h
    cases hl : (p.completed_items.filter
        (fun id => (get_topic_progression c t f).contains id)).getLast? with
    | none =>
        rw [hl] at h
        exact List.mem_of_mem_head? h
    | some last =>
        rw [hl] at h
        dsimp only at h
        unfold get_next_item_id at h
        dsimp only at h
        cases hidx : (get_topic_progression c t f).findIdx? (· == last) with
        | none =>
            rw [hidx] at h
            exact List.mem_of_find?_eq_some h
        | some i =>
            rw [hidx] at h
            exact List.mem_of_mem_drop (List.mem_of_find?_eq_some h)

theorem lookup_mark_finished (w : World) (sid : String) :
    List.lookup sid (mark_finished w sid).sessions =
      (List.lookup sid w.sessions).map (fun s => { s with finished := true }) :=
  lookup_dictModify_self ..

theorem lookup_add_learning_insight (w : World) (sid m : String) :
    List.lookup sid (add_learning_insight w sid m).sessions =
      (List.lookup sid w.sessions).map
        (fun s => { s with learning_insights := s.learning_insights ++ [m] }) :=
  lookup_dictModify_self ..

/- Evaluation of the success branch: the state it produces and the
   response fields, for an item present in the catalog. -/
theorem do_step_success_eval (w4 : World) (s1 : Session) (item : Item)
    (np : Option String) (req : StepRequest)
    (hi : List.lookup s1.item_id w4.items = some item)
    (hne : s1.item_id ≠ "") :
    ∃ resp,
      do_step_success w4 s1 item np req =
        (add_xp
          (clear_current_session
            (mark_item_completed
              (mark_finished (add_to_conversation w4 req.session_id "tutor" (pyOr np "Great job!"))
                req.session_id)
              s1.learner_id s1.item_id)
            s1.learner_id)
          s1.learner_id (base_xp_of (item.complexity.getD "Easy") * item.marks.getD 1),
         .ok resp) ∧
      resp.correctness = some true ∧ resp.finished = true ∧
      (∀ nid,
        recommend_next_session w4.items
            (completedProfileUpdate
              ((List.lookup s1.learner_id w4.profiles).getD (defaultProfile s1.learner_id))
              s1.item_id item)
            (item.topic.getD "") item.subtopic = some nid →
        resp.updates.next_item_id = some nid ∧
        resp.updates.next_item_available = some true ∧
        resp.updates.item_completed = some true) ∧
      (recommend_next_session w4.items
          (completedProfileUpdate
            ((List.lookup s1.learner_id w4.profiles).getD (defaultProfile s1.learner_id))
            s1.item_id item)
          (item.topic.getD "") item.subtopic = none →
        resp.updates.progression_completed = some true ∧
        resp.updates.item_completed = some true) := by
  have hP : List.lookup s1.learner_id
      (add_xp
        (clear_current_session
          (mark_item_completed
            (mark_finished (add_to_conversation w4 req.session_id "tutor" (pyOr np "Great job!"))
              req.session_id)
            s1.learner_id s1.item_id)
          s1.learner_id)
        s1.learner_id (base_xp_of (item.complexity.getD "Easy") * item.marks.getD 1)).profiles =
      some (completedProfileUpdate
        ((List.lookup s1.learner_id w4.profiles).getD (defaultProfile s1.learner_id))
        s1.item_id item) := by
    rw [lookup_add_xp, lookup_clear_current_session, lookup_mark_item_completed]
    simp only [mark_finished_profiles, add_to_conversation_profiles]
    rfl
  simp only [do_step_success]
  rw [show (get_profile
      (add_xp
        (clear_current_session
          (mark_item_completed
            (mark_finished (add_to_conversation w4 req.session_id "tutor" (pyOr np "Great job!"))
              req.session_id)
            s1.learner_id s1.item_id)
          s1.learner_id)
        s1.learner_id (base_xp_of (item.complexity.getD "Easy") * item.marks.getD 1))
      s1.learner_id) =
    (completedProfileUpdate
        ((List.lookup s1.learner_id w4.profiles).getD (defaultProfile s1.learner_id))
        s1.item_id item,
     add_xp
        (clear_current_session
          (mark_item_completed
            (mark_finished (add_to_conversation w4 req.session_id "tutor" (pyOr np "Great job!"))
              req.session_id)
            s1.learner_id s1.item_id)
          s1.learner_id)
        s1.learner_id (base_xp_of (item.complexity.getD "Easy") * item.marks.getD 1))
    from by unfold get_profile; rw [hP]]
  dsimp only
  simp only [add_xp_items, clear_current_session_items, mark_item_completed_items,
    mark_finished_items, add_to_conversation_items]
  have hx : extract_topic_from_item_id w4.items s1.item_id = .ok (item.topic.getD "") := by
    unfold extract_topic_from_item_id
    rw [if_neg hne]
    dsimp only
    rw [hi]
  rw [hx, hi]
  dsimp only [Option.bind]
  rcases hrec : recommend_next_session w4.items
      (completedProfileUpdate
        ((List.lookup s1.learner_id w4.profiles).getD (defaultProfile s1.learner_id))
        s1.item_id item)
      (item.topic.getD "") item.subtopic with _ | nid
  · refine ⟨_, rfl, rfl, rfl, ?_, ?_⟩
    · intro nid' h'
      cases h'
    · intro _
      exact ⟨rfl, rfl⟩
  · obtain ⟨nit, hnit⟩ := mem_prog_lookup _ _ _ _ (recommend_mem _ _ _ _ _ hrec)
    dsimp only
    rw [hnit]
    refine ⟨_, rfl, rfl, rfl, ?_, ?_⟩
    · intro nid' h'
      cases h'
      exact ⟨rfl, rfl, rfl⟩
    · intro h'
      cases h'

/-- C6: a step whose verdict is true marks the session finished with the
success verdict in the response, appends the tutor's success message to
the conversation log after the student's entry, updates the learner
profile by marking the item completed (idempotently — marking an
already-completed item is a no-op on the repository), crediting exactly
base_xp(complexity) × marks XP with Easy=10, Medium=15, Hard=20, and
clearing the current-session pointer, and the response carries the next
recommendation in the item's topic/subtopic scope or reports the
progression completed when none remains. -/
theorem do_step_success_claim :
    ∀ (llm : Option LLMBehavior) (w : World) (req : StepRequest) (s : Session) (item : Item),
      List.lookup req.session_id w.sessions = some s →
      s.finished = false →
      List.lookup s.item_id w.items = some item →
      s.item_id ≠ "" →
      verdictOf llm = some true →
      (∀ (w0 : World) (lid iid : String) (p : Profile),
        List.lookup lid w0.profiles = some p → p.completed_items.contains iid = true →
        mark_item_completed w0 lid iid = w0) ∧
      base_xp_of "Easy" = 10 ∧ base_xp_of "Medium" = 15 ∧ base_xp_of "Hard" = 20 ∧
      ∃ w' resp,
        do_step llm w req = (w', .ok resp) ∧
        resp.correctness = some true ∧
        resp.finished = true ∧
        (List.lookup req.session_id w'.sessions).map Session.finished = some true ∧
        (∃ m, (List.lookup req.session_id w'.sessions).map Session.conversation_history =
          some (s.conversation_history ++
            [⟨"student", req.user_response⟩, ⟨"tutor", m⟩])) ∧
        List.lookup s.learner_id w'.profiles =
          some (completedProfileUpdate
                  ((List.lookup s.learner_id w.profiles).getD (defaultProfile s.learner_id))
                  s.item_id item) ∧
        (∀ nid,
          recommend_next_session w.items
              (completedProfileUpdate
                ((List.lookup s.learner_id w.profiles).getD (defaultProfile s.learner_id))
                s.item_id item)
              (item.topic.getD "") item.subtopic = some nid →
          resp.updates.next_item_id = some nid ∧
          resp.updates.next_item_available = some true ∧
          resp.updates.item_completed = some true) ∧
        (recommend_next_session w.items
            (completedProfileUpdate
              ((List.lookup s.learner_id w.profiles).getD (defaultProfile s.learner_id))
              s.item_id item)
            (item.topic.getD "") item.subtopic = none →
          resp.updates.progression_completed = some true ∧
          resp.updates.item_completed = some true) := by
  intro llm w req s item hs hf hi hne hv
  refine ⟨?_, rfl, rfl, rfl, ?_⟩
  · intro w0 lid iid p hp hc
    unfold mark_item_completed get_profile
    rw [hp]
    dsimp only
    rw [if_pos hc]
    have h1 : ({ p with completed_items := p.completed_items } : Profile) = p := rfl
    rw [h1, dictSet_lookup_self _ _ _ hp]
  · obtain ⟨r, rfl, hr⟩ : ∃ r, llm = some (.returns r) ∧ r.is_correct.getD false = true := by
      match llm, hv with
      | some (.returns r), hv => exact ⟨r, rfl, Option.some.inj hv⟩
    simp only [do_step, hs, hf, Bool.false_eq_true, if_false, lookup_add_to_conversation,
      Option.map_some, Option.getD_some, evaluate_simplified]
    rw [hr]
    dsimp only
    rw [hi]
    simp only [Option.map_some', Option.getD_some, ne_eq, eq_self_iff_true, not_true,
      if_false, if_true]
    by_cases hins : strTrim (r.feedback.getD "") = ""
    · simp only [hins, eq_self_iff_true, not_true, if_false]
      obtain ⟨resp, hEq, hcorr, hfin, himps, himpn⟩ :=
        do_step_success_eval
          (append_step (add_to_conversation w req.session_id "student" req.user_response)
            req.session_id ⟨"main", req.user_response, some true⟩)
          { s with conversation_history :=
              s.conversation_history ++ [⟨"student", req.user_response⟩] }
          item (some (r.feedback.getD "")) req hi hne
      refine ⟨_, resp, hEq, hcorr, hfin, ?_, ?_, ?_, himps, himpn⟩
      · simp only [add_xp_sessions, clear_current_session_sessions,
          mark_item_completed_sessions, lookup_mark_finished, lookup_add_to_conversation,
          lookup_append_step, hs, Option.map_some]
        rfl
      · refine ⟨pyOr (some (r.feedback.getD "")) "Great job!", ?_⟩
        simp only [add_xp_sessions, clear_current_session_sessions,
          mark_item_completed_sessions, lookup_mark_finished, lookup_add_to_conversation,
          lookup_append_step, hs, Option.map_some]
        simp [List.append_assoc]
      · rw [lookup_add_xp, lookup_clear_current_session, lookup_mark_item_completed]
        simp only [mark_finished_profiles, add_to_conversation_profiles,
          append_step_profiles]
        rfl
    · simp only [hins, not_false_eq_true, if_true]
      obtain ⟨resp, hEq, hcorr, hfin, himps, himpn⟩ :=
        do_step_success_eval
          (add_learning_insight
            (append_step (add_to_conversation w req.session_id "student" req.user_response)
              req.session_id ⟨"main", req.user_response, some true⟩)
            req.session_id (strTrim (r.feedback.getD "")))
          { s with conversation_history :=
              s.conversation_history ++ [⟨"student", req.user_response⟩] }
          item (some (r.feedback.getD "")) req hi hne
      refine ⟨_, resp, hEq, hcorr, hfin, ?_, ?_, ?_, himps, himpn⟩
      · simp only [add_xp_sessions, clear_current_session_sessions,
          mark_item_completed_sessions, lookup_mark_finished, lookup_add_to_conversation,
          lookup_add_learning_insight, lookup_append_step, hs, Option.map_some]
        rfl
      · refine ⟨pyOr (some (r.feedback.getD "")) "Great job!", ?_⟩
        simp only [add_xp_sessions, clear_current_session_sessions,
          mark_item_completed_sessions, lookup_mark_finished, lookup_add_to_conversation,
          lookup_add_learning_insight, lookup_append_step, hs, Option.map_some]
        simp [List.append_assoc]
      · rw [lookup_add_xp, lookup_clear_current_session, lookup_mark_item_completed]
        simp only [mark_finished_profiles, add_to_conversation_profiles,
          append_step_profiles, add_learning_insight_profiles]
        rfl

/-- C6 witness: a correct step at the fixture world finishes the session
with the success verdict, and Easy items credit base XP 10. -/
theorem do_step_success_claim_witness :
    base_xp_of "Easy" = 10 ∧
    ∃ w' resp,
      do_step
          (some (.returns { is_correct := some true, feedback := some "Well done",
                            should_advance := some true }))
          wFix reqFix = (w', .ok resp) ∧
      resp.correctness = some true ∧ resp.finished = true ∧
      (List.lookup "s1" w'.sessions).map Session.finished = some true := by
  have h := do_step_success_claim
    (some (.returns { is_correct := some true, feedback := some "Well done",
                      should_advance := some true }))
    wFix reqFix (sessFix "s1" "learner-1" "ALGEBRA-INTRO-Q1") (testItem 1).2
    (by decide) (by decide) (by decide) (by decide) rfl
  obtain ⟨w', resp, h1, h2, h3, h4, -⟩ := h.2.2.2.2
  exact ⟨h.2.1, w', resp, h1, h2, h3, h4⟩

end Edil
